import Mathlib

/-!
Verification development for the `openclaw_tui` monitoring dashboard
(`src/monitoring/openclaw_tui.py`).

The Python source is shallowly embedded: pure functions become Lean
functions, dynamically-typed JSON values become the inductive `JVal`,
operations that can raise a Python exception return `Except String`,
`json.loads` is modelled by the executable recursive-descent reader
`jsonParse` (JSON numbers are modelled as integers; none of the
properties studied here involve fractional literals), and wall-clock
sampling becomes an explicit integer-millisecond parameter bound once
per call, exactly as `now_ms` is bound once in the source.
-/

-- ── basic string helpers (Python str operations) ──────────────────────

/-- Whitespace characters removed by Python `str.strip()` (ASCII subset). -/
def pyWs (c : Char) : Bool :=
  c == ' ' || c == '\t' || c == '\n' || c == '\r' || c == '\x0b' || c == '\x0c'

/-- Python `s.strip()`. -/
def strStrip (s : String) : String :=
  ⟨((s.data.dropWhile pyWs).reverse.dropWhile pyWs).reverse⟩

/-- Python `s[:n]` on a string (slice of the first `n` code points). -/
def strTake (s : String) (n : Nat) : String :=
  ⟨s.data.take n⟩

def splitOnCharAux (sep : Char) : List Char → List Char → List (List Char)
  | [], acc => [acc.reverse]
  | c :: cs, acc =>
      if c == sep then acc.reverse :: splitOnCharAux sep cs []
      else splitOnCharAux sep cs (c :: acc)

/-- Python `s.split(sep)` for a one-character separator. -/
def strSplitOnChar (s : String) (sep : Char) : List String :=
  (splitOnCharAux sep s.data []).map (fun l => ⟨l⟩)

/-- Python `s.replace(a, b)` for one-character pattern and replacement. -/
def strReplaceChar (s : String) (a b : Char) : String :=
  ⟨s.data.map (fun c => if c == a then b else c)⟩

/-- Python `s.upper()` (ASCII). -/
def strUpper (s : String) : String :=
  ⟨s.data.map Char.toUpper⟩

def natToStrAux : Nat → Nat → List Char → List Char
  | 0, _, acc => acc
  | fuel + 1, n, acc =>
      if n < 10 then Char.ofNat (48 + n) :: acc
      else natToStrAux fuel (n / 10) (Char.ofNat (48 + n % 10) :: acc)

/-- Decimal rendering of a natural number (Python `str(i)`). -/
def natToStr (n : Nat) : String :=
  ⟨natToStrAux (n + 1) n []⟩

/-- Decimal rendering of an integer. -/
def intToStr (n : Int) : String :=
  if n < 0 then "-" ++ natToStr n.natAbs else natToStr n.natAbs

/-- Python `s.removeprefix(p)` (used with prefixes `"google-"` and `"gateway/"`). -/
def dropPre (s p : String) : String :=
  if p.data.isPrefixOf s.data then ⟨s.data.drop p.data.length⟩ else s

/-- Helper for `strContains`: does `pat` occur in the character list? -/
def subAux (pat : List Char) : List Char → Bool
  | [] => pat.isEmpty
  | c :: cs => pat.isPrefixOf (c :: cs) || subAux pat cs

/-- Python `pat in s` on strings (substring containment). -/
def strContains (s pat : String) : Bool :=
  subAux pat.data s.data

-- ── JSON values (Python objects produced by json.loads) ───────────────

/-- Dynamically-typed JSON values as handled by the Python source.
Objects are association lists in insertion order (Python dicts preserve
insertion order); numbers are modelled as integers. -/
inductive JVal where
  | null
  | bool (b : Bool)
  | int (n : Int)
  | str (s : String)
  | arr (xs : List JVal)
  | obj (kvs : List (String × JVal))
deriving Repr

mutual

/-- Python `==` on JSON values (structural equality). -/
def JVal.beq : JVal → JVal → Bool
  | .null, .null => true
  | .bool a, .bool b => a == b
  | .int a, .int b => a == b
  | .str a, .str b => a == b
  | .arr a, .arr b => JVal.beqList a b
  | .obj a, .obj b => JVal.beqObj a b
  | _, _ => false

def JVal.beqList : List JVal → List JVal → Bool
  | [], [] => true
  | a :: as, b :: bs => JVal.beq a b && JVal.beqList as bs
  | _, _ => false

def JVal.beqObj : List (String × JVal) → List (String × JVal) → Bool
  | [], [] => true
  | (k, a) :: as, (l, b) :: bs => k == l && JVal.beq a b && JVal.beqObj as bs
  | _, _ => false

end

/-- First-match lookup in an object's key/value list (Python `dict.get`;
keys in a parsed dict are unique). -/
def jlookup : List (String × JVal) → String → Option JVal
  | [], _ => none
  | (k, v) :: rest, key => if k == key then some v else jlookup rest key

/-- Python `d.get(k, default)`: succeeds on a dict, raises
`AttributeError` on anything else. -/
def pyGet (d : JVal) (k : String) (default : JVal) : Except String JVal :=
  match d with
  | .obj kvs => .ok ((jlookup kvs k).getD default)
  | _ => .error "AttributeError"

/-- Python truthiness of a JSON value. -/
def truthy : JVal → Bool
  | .null => false
  | .bool b => b
  | .int n => n != 0
  | .str s => s != ""
  | .arr xs => !xs.isEmpty
  | .obj kvs => !kvs.isEmpty

/-- Numeric coercion used by Python comparison operators: ints compare
directly, bools compare as 0/1, anything else raises `TypeError`. -/
def pyNum : JVal → Except String Int
  | .int n => .ok n
  | .bool b => .ok (if b then 1 else 0)
  | _ => .error "TypeError"

-- ── model of json.loads / json.dumps / str() ──────────────────────────

/-- JSON whitespace accepted between tokens by `json.loads`. -/
def jsonWsChar (c : Char) : Bool :=
  c == ' ' || c == '\t' || c == '\n' || c == '\r'

def skipJWs : List Char → List Char
  | [] => []
  | c :: cs => if jsonWsChar c then skipJWs cs else c :: cs

/-- The value of one hexadecimal digit (for `\uXXXX` escapes), by
character code: `0`-`9` are codes 48-57, `A`-`F` codes 65-70, `a`-`f`
codes 97-102. -/
def hexDigitVal (c : Char) : Option Nat :=
  let n := c.toNat
  if 48 ≤ n ∧ n ≤ 57 then some (n - 48)
  else if 97 ≤ n ∧ n ≤ 102 then some (n - 87)
  else if 65 ≤ n ∧ n ≤ 70 then some (n - 55)
  else none

/-- Body of a JSON string literal after the opening quote: returns the
decoded characters and the input after the closing quote. -/
def parseStrBody : Nat → List Char → Option (List Char × List Char)
  | 0, _ => none
  | _ + 1, [] => none
  | fuel + 1, c :: cs =>
    if c == '"' then some ([], cs)
    else if c == '\\' then
      match cs with
      | [] => none
      | e :: cs' =>
        if e == 'u' then
          match cs' with
          | h1 :: h2 :: h3 :: h4 :: cs'' =>
            match hexDigitVal h1, hexDigitVal h2, hexDigitVal h3, hexDigitVal h4 with
            | some a, some b, some c2, some d =>
              match parseStrBody fuel cs'' with
              | some (out, r) =>
                  some (Char.ofNat (a * 4096 + b * 256 + c2 * 16 + d) :: out, r)
              | none => none
            | _, _, _, _ => none
          | _ => none
        else
          let dec : Option Char :=
            if e == '"' then some '"'
            else if e == '\\' then some '\\'
            else if e == '/' then some '/'
            else if e == 'b' then some '\x08'
            else if e == 'f' then some '\x0c'
            else if e == 'n' then some '\n'
            else if e == 'r' then some '\r'
            else if e == 't' then some '\t'
            else none
          match dec with
          | none => none
          | some ch =>
            match parseStrBody fuel cs' with
            | some (out, r) => some (ch :: out, r)
            | none => none
    else if c.toNat < 32 then none
    else
      match parseStrBody fuel cs with
      | some (out, r) => some (c :: out, r)
      | none => none

def digitsToNat (ds : List Char) : Nat :=
  ds.foldl (fun a c => a * 10 + (c.toNat - '0'.toNat)) 0

/-- JSON number literal; fractional and exponent literals are outside
this model (no property studied here involves them). -/
def parseNum (cs : List Char) : Option (JVal × List Char) :=
  let p := match cs with
    | '-' :: r => (true, r)
    | _ => (false, cs)
  let ds := p.2.takeWhile Char.isDigit
  let rest := p.2.dropWhile Char.isDigit
  if ds.isEmpty then none
  else if decide (1 < ds.length) && ds.headD '0' == '0' then none
  else
    match rest with
    | '.' :: _ => none
    | 'e' :: _ => none
    | 'E' :: _ => none
    | _ =>
      let n : Int := Int.ofNat (digitsToNat ds)
      some (.int (if p.1 then -n else n), rest)

/-- Python dict insertion: a repeated key replaces the value in place,
otherwise the pair is appended. -/
def objInsert : List (String × JVal) → String → JVal → List (String × JVal)
  | [], k, v => [(k, v)]
  | (k', v') :: rest, k, v =>
      if k' == k then (k, v) :: rest else (k', v') :: objInsert rest k v

mutual

def parseJVal : Nat → List Char → Option (JVal × List Char)
  | 0, _ => none
  | fuel + 1, cs0 =>
    match skipJWs cs0 with
    | [] => none
    | c :: cs =>
      if c == 'n' then
        match cs with
        | 'u' :: 'l' :: 'l' :: r => some (.null, r)
        | _ => none
      else if c == 't' then
        match cs with
        | 'r' :: 'u' :: 'e' :: r => some (.bool true, r)
        | _ => none
      else if c == 'f' then
        match cs with
        | 'a' :: 'l' :: 's' :: 'e' :: r => some (.bool false, r)
        | _ => none
      else if c == '"' then
        match parseStrBody (fuel + 1) cs with
        | some (out, r) => some (.str ⟨out⟩, r)
        | none => none
      else if c == '[' then
        match skipJWs cs with
        | ']' :: r => some (.arr [], r)
        | cs' => parseElems fuel cs' []
      else if c == '\x7b' then
        match skipJWs cs with
        | '\x7d' :: r => some (.obj [], r)
        | cs' => parseMembers fuel cs' []
      else if c == '-' || c.isDigit then parseNum (c :: cs)
      else none

def parseElems : Nat → List Char → List JVal → Option (JVal × List Char)
  | 0, _, _ => none
  | fuel + 1, cs, acc =>
    match parseJVal fuel cs with
    | none => none
    | some (v, r) =>
      match skipJWs r with
      | ',' :: r' => parseElems fuel r' (acc ++ [v])
      | ']' :: r' => some (.arr (acc ++ [v]), r')
      | _ => none

def parseMembers : Nat → List Char → List (String × JVal) → Option (JVal × List Char)
  | 0, _, _ => none
  | fuel + 1, cs, acc =>
    match skipJWs cs with
    | '"' :: cs' =>
      match parseStrBody (fuel + 1) cs' with
      | none => none
      | some (key, r) =>
        match skipJWs r with
        | ':' :: r' =>
          match parseJVal fuel r' with
          | none => none
          | some (v, r'') =>
            match skipJWs r'' with
            | ',' :: r3 => parseMembers fuel r3 (objInsert acc ⟨key⟩ v)
            | '\x7d' :: r3 => some (.obj (objInsert acc ⟨key⟩ v), r3)
            | _ => none
        | _ => none
    | _ => none

end

/-- Model of Python `json.loads`: `none` means the call raises
`json.JSONDecodeError`. -/
def jsonParse (s : String) : Option JVal :=
  match parseJVal (2 * s.length + 2) s.data with
  | some (v, rest) => if (skipJWs rest).isEmpty then some v else none
  | none => none

def escapeJsonChar (c : Char) : List Char :=
  if c == '"' then ['\\', '"']
  else if c == '\\' then ['\\', '\\']
  else if c == '\n' then ['\\', 'n']
  else if c == '\t' then ['\\', 't']
  else if c == '\r' then ['\\', 'r']
  else [c]

def escapeJson (s : String) : String :=
  ⟨(s.data.map escapeJsonChar).flatten⟩

mutual

/-- Model of Python `json.dumps` with default separators. -/
def jsonDumps : JVal → String
  | .null => "null"
  | .bool true => "true"
  | .bool false => "false"
  | .int n => intToStr n
  | .str s => "\"" ++ escapeJson s ++ "\""
  | .arr xs => "[" ++ dumpsElems xs ++ "]"
  | .obj kvs => "\x7b" ++ dumpsMembers kvs ++ "\x7d"

def dumpsElems : List JVal → String
  | [] => ""
  | [x] => jsonDumps x
  | x :: y :: xs => jsonDumps x ++ ", " ++ dumpsElems (y :: xs)

def dumpsMembers : List (String × JVal) → String
  | [] => ""
  | [(k, v)] => "\"" ++ escapeJson k ++ "\": " ++ jsonDumps v
  | (k, v) :: m :: kvs =>
      "\"" ++ escapeJson k ++ "\": " ++ jsonDumps v ++ ", " ++ dumpsMembers (m :: kvs)

end

mutual

/-- Model of Python `repr` on JSON values (single-quoted strings). -/
def pyRepr : JVal → String
  | .null => "None"
  | .bool true => "True"
  | .bool false => "False"
  | .int n => intToStr n
  | .str s => "\x27" ++ s ++ "\x27"
  | .arr xs => "[" ++ pyReprElems xs ++ "]"
  | .obj kvs => "\x7b" ++ pyReprMembers kvs ++ "\x7d"

def pyReprElems : List JVal → String
  | [] => ""
  | [x] => pyRepr x
  | x :: y :: xs => pyRepr x ++ ", " ++ pyReprElems (y :: xs)

def pyReprMembers : List (String × JVal) → String
  | [] => ""
  | [(k, v)] => "\x27" ++ k ++ "\x27: " ++ pyRepr v
  | (k, v) :: m :: kvs => "\x27" ++ k ++ "\x27: " ++ pyRepr v ++ ", " ++ pyReprMembers (m :: kvs)

end

/-- Model of Python `str()` on JSON values. -/
def pyStr : JVal → String
  | .str s => s
  | v => pyRepr v

-- ── parse_model_status (openclaw_tui.py lines 149-193) ────────────────

/-- `_shorten`: `gemini-cli/gemini-3-flash` instead of
`google-gemini-cli/gemini-3-flash` (lines 149-155). -/
def _shorten (model_id : String) : String :=
  match strSplitOnChar model_id '/' with
  | [provider, rest] => dropPre provider "google-" ++ "/" ++ rest
  | _ => model_id

/-- One entry of the UI rotation list built by `parse_model_status`. -/
structure RotationEntry where
  model : String
  label : String
  status : String
  position : Nat
  alias' : Option String
deriving Repr, DecidableEq

/-- One entry of the `oauth_profiles` list (fields keep the dynamic
values the source stores). -/
structure OAuthProfile where
  profile_id : JVal
  provider : JVal
  status : JVal
  expires_at : JVal
  remaining_ms : JVal
deriving Repr

/-- The dict returned by `parse_model_status` (lines 187-193). -/
structure ParsedStatus where
  default : JVal
  rotation : List RotationEntry
  oauth_profiles : List OAuthProfile
  aliases : JVal
  raw : JVal
deriving Repr

/-- Is the value usable as a Python dict key?  JSON scalars (`None`,
booleans, numbers, strings) are hashable; lists and dicts are not. -/
def hashable : JVal → Bool
  | .arr _ => false
  | .obj _ => false
  | _ => true

/-- The dict comprehension `{v: k for k, v in aliases.items()}` at line
161: each alias value becomes a key of `aliases_inv`, so iteration
raises `TypeError` as soon as some value is unhashable.  The inversion
is represented by the original pair list; `aliasLookup` below performs
the lookups on it. -/
def invertAliases (pairs : List (String × JVal)) :
    Except String (List (String × JVal)) :=
  if pairs.all (fun kv => hashable kv.2) then .ok pairs else .error "TypeError"

/-- `aliases_inv.get(model)` on an inversion that line 161 built without
raising: for a duplicated value the later key wins, as in the dict
comprehension. -/
def aliasLookup (pairs : List (String × JVal)) (m : JVal) : Option String :=
  match pairs with
  | [] => none
  | (k, v) :: rest =>
    match aliasLookup rest m with
    | some r => some r
    | none => if JVal.beq v m then some k else none

/-- The rotation-building loop (lines 163-175); a non-string model makes
`_shorten` raise. -/
def buildRotation (aliasPairs : List (String × JVal)) :
    Nat → List JVal → Except String (List RotationEntry)
  | _, [] => .ok []
  | i, m :: rest =>
    match m with
    | .str s =>
      match buildRotation aliasPairs (i + 1) rest with
      | .error e => .error e
      | .ok es =>
          .ok ({ model := s, label := _shorten s,
                 status := if i == 0 then "ACTIVE" else "#" ++ natToStr i,
                 position := i, alias' := aliasLookup aliasPairs m } :: es)
    | _ => .error "AttributeError"

/-- The oauth-profile loop body (lines 177-185). -/
def buildOAuth : List JVal → Except String (List OAuthProfile)
  | [] => .ok []
  | .obj pk :: rest =>
    match buildOAuth rest with
    | .error e => .error e
    | .ok os =>
        .ok ({ profile_id := (jlookup pk "profileId").getD (.str ""),
               provider := (jlookup pk "provider").getD (.str ""),
               status := (jlookup pk "status").getD (.str ""),
               expires_at := (jlookup pk "expiresAt").getD .null,
               remaining_ms := (jlookup pk "remainingMs").getD (.int 0) } :: os)
  | _ :: _ => .error "AttributeError"

/-- `raw.get("auth", {}).get("oauth", {}).get("profiles", [])` and the
loop over it (lines 177-185).  Iterating a non-list is only harmless in
Python when the iterable is empty (each produced item would need `.get`);
that is reflected in the empty-string/empty-dict cases. -/
def oauthOf (raw : JVal) : Except String (List OAuthProfile) :=
  match pyGet raw "auth" (.obj []) with
  | .error e => .error e
  | .ok authV =>
    match pyGet authV "oauth" (.obj []) with
    | .error e => .error e
    | .ok oauthV =>
      match pyGet oauthV "profiles" (.arr []) with
      | .error e => .error e
      | .ok profsV =>
        match profsV with
        | .arr ps => buildOAuth ps
        | .str s => if s == "" then .ok [] else .error "AttributeError"
        | .obj kvs => if kvs.isEmpty then .ok [] else .error "AttributeError"
        | _ => .error "TypeError"

/-- Tail of `parse_model_status` once the fallbacks value is known to
be the list `fallbacks` and the aliases value the dict `aliasPairs`
(lines 163-193): build the rotation, the oauth-profile list, and the
result dict. -/
def parseRotation (raw default : JVal) (fallbacks : List JVal)
    (aliasPairs : List (String × JVal)) : Except String ParsedStatus :=
  match buildRotation aliasPairs 0 (default :: fallbacks) with
  | .error e => .error e
  | .ok rotation =>
    match oauthOf raw with
    | .error e => .error e
    | .ok oauth_profiles =>
        .ok { default := default, rotation := rotation,
              oauth_profiles := oauth_profiles,
              aliases := .obj aliasPairs, raw := raw }

/-- `[default] + fallbacks` (line 164) demands a list. -/
def parseWithAliases (raw default fallbacksV : JVal)
    (aliasPairs : List (String × JVal)) : Except String ParsedStatus :=
  match fallbacksV with
  | .arr fallbacks => parseRotation raw default fallbacks aliasPairs
  | _ => .error "TypeError"

/-- The alias-inversion stage (line 161): `aliases_inv` is built before
the rotation loop runs, so an unhashable alias value raises `TypeError`
here, before the line-164 list concatenation is reached. -/
def parseWithInv (raw default fallbacksV : JVal)
    (aliasPairs : List (String × JVal)) : Except String ParsedStatus :=
  match invertAliases aliasPairs with
  | .error e => .error e
  | .ok inv => parseWithAliases raw default fallbacksV inv

/-- `parse_model_status` (lines 157-193).  `.error` marks an input on
which the Python function raises. -/
def parse_model_status (raw : JVal) : Except String ParsedStatus :=
  match pyGet raw "defaultModel" (.str "") with
  | .error e => .error e
  | .ok default =>
    match pyGet raw "fallbacks" (.arr []) with
    | .error e => .error e
    | .ok aliasesFallbacksV =>
      match pyGet raw "aliases" (.obj []) with
      | .error e => .error e
      | .ok aliasesV =>
        match aliasesV with
        | .obj aliasPairs => parseWithInv raw default aliasesFallbacksV aliasPairs
        | _ => .error "AttributeError"

-- ── read_auth_profiles (openclaw_tui.py lines 195-226) ────────────────

/-- One element of the list returned by `read_auth_profiles`;
dynamically-typed fields keep their `JVal`. -/
structure AuthProfile where
  profile_id : String
  provider : JVal
  auth_type : JVal
  email : JVal
  api_key : Option String
  expires_ms : JVal
  in_cooldown : Bool
  cooldown_remaining_ms : Int
  error_count : JVal
  last_used_ms : JVal
deriving Repr

/-- The `api_key` display field (line 219):
`pdata.get("apiKey", "")[:8] + "..." if pdata.get("apiKey") else None`.
Slicing a truthy non-string raises. -/
def apiKeyField (pkvs : List (String × JVal)) : Except String (Option String) :=
  if truthy ((jlookup pkvs "apiKey").getD .null) then
    match (jlookup pkvs "apiKey").getD (.str "") with
    | .str s => .ok (some (strTake s 8 ++ "..."))
    | _ => .error "TypeError"
  else .ok none

/-- The dict built at lines 214-225 for one profile, after
`cooldown_until` coerced to the number `c` and `pdata` turned out to be
the dict `pkvs`. -/
def profileEntryWithKey (now c : Int) (skvs pkvs : List (String × JVal))
    (pid : String) : Except String AuthProfile :=
  match apiKeyField pkvs with
  | .error e => .error e
  | .ok api_key =>
      .ok { profile_id := pid,
            provider :=
              (jlookup pkvs "provider").getD
                (.str ((strSplitOnChar pid ':').headD "")),
            auth_type := (jlookup pkvs "type").getD (.str "unknown"),
            email := (jlookup pkvs "email").getD .null,
            api_key := api_key,
            expires_ms := (jlookup pkvs "expires").getD .null,
            in_cooldown := decide (c > now),
            cooldown_remaining_ms := if c > now then max 0 (c - now) else 0,
            error_count := (jlookup skvs "errorCount").getD (.int 0),
            last_used_ms := (jlookup skvs "lastUsed").getD .null }

/-- Body of one iteration of the loop over `profiles_raw.items()`
(lines 209-225) once `stats = usage.get(pid, {})` is known to be the
dict `skvs`.  `now` is the single `now_ms` sample of the call;
`in_cooldown = cooldown_until > now_ms` and
`cooldown_remaining_ms = max(0, cooldown_until - now_ms)` when in
cooldown, else `0` (lines 210-212). -/
def profileEntryCore (now : Int) (skvs : List (String × JVal)) (pid : String)
    (pdata : JVal) : Except String AuthProfile :=
  match pyNum ((jlookup skvs "cooldownUntil").getD (.int 0)) with
  | .error e => .error e
  | .ok c =>
    match pdata with
    | .obj pkvs => profileEntryWithKey now c skvs pkvs pid
    | _ => .error "AttributeError"

/-- One iteration of the loop over `profiles_raw.items()` (lines
208-225): `stats = usage.get(pid, {})` must be a dict for the
`stats.get` calls to succeed. -/
def profileEntry (now : Int) (usage : JVal) (pid : String) (pdata : JVal) :
    Except String AuthProfile :=
  match pyGet usage pid (.obj []) with
  | .error e => .error e
  | .ok (.obj skvs) => profileEntryCore now skvs pid pdata
  | .ok _ => .error "AttributeError"

/-- The loop of lines 208-225 over all profiles. -/
def readLoop (now : Int) (usage : JVal) :
    List (String × JVal) → Except String (List AuthProfile)
  | [] => .ok []
  | (pid, pdata) :: rest =>
    match profileEntry now usage pid pdata with
    | .error e => .error e
    | .ok a =>
      match readLoop now usage rest with
      | .error e => .error e
      | .ok as => .ok (a :: as)

/-- `read_auth_profiles` on an in-memory `raw` dict (lines 195-226).
`now` models the single `datetime.now(timezone.utc).timestamp() * 1000`
sample taken at line 205, before the loop: every profile of one call is
judged against this same value. -/
def read_auth_profiles (raw : JVal) (now : Int) :
    Except String (List AuthProfile) :=
  match pyGet raw "profiles" (.obj []) with
  | .error e => .error e
  | .ok profilesV =>
    match pyGet raw "usageStats" (.obj []) with
    | .error e => .error e
    | .ok usage =>
      match profilesV with
      | .obj profs => readLoop now usage profs
      | _ => .error "AttributeError"

-- ── _parse_log_line (openclaw_tui.py lines 247-275) ───────────────────

/-- `LOG_IMPORTANT_SUBSYSTEMS` (line 247), in source order. -/
def LOG_IMPORTANT_SUBSYSTEMS : List String :=
  ["model", "ratelimit", "fallback", "error", "gateway/reload"]

/-- A parsed log event (the dict built at lines 267-273). -/
structure LogEvent where
  time : String
  subsystem : String
  message : String
  level : String
  important : Bool
deriving Repr, DecidableEq

/-- The inner `try` of lines 256-260: decode the subsystem out of the
`name` metadata field, falling back to `str(name_raw)` on any failure. -/
def subsystemOf (name_raw : JVal) : String :=
  match name_raw with
  | .str s =>
    match jsonParse s with
    | none => s
    | some nameObj =>
      match nameObj with
      | .obj kvs =>
        match (jlookup kvs "subsystem").getD (.str "unknown") with
        | .str sub => dropPre sub "gateway/"
        | _ => s
      | _ => s
  | .obj kvs =>
    match (jlookup kvs "subsystem").getD (.str "unknown") with
    | .str sub => dropPre sub "gateway/"
    | _ => pyStr name_raw
  | v => pyStr v

/-- `_parse_log_line` (lines 249-275): `none` is the `None` returned on
any exception of the outer `try`. -/
def _parse_log_line (raw_line : String) : Option LogEvent :=
  match jsonParse raw_line with
  | none => none
  | some obj =>
    match obj with
    | .obj kvs =>
      match (jlookup kvs "_meta").getD (.obj []) with
      | .obj mkvs =>
        let name_raw := (jlookup mkvs "name").getD (.str "\x7b\x7d")
        let subsystem := subsystemOf name_raw
        let msg :=
          match (jlookup kvs "1").getD (.str "") with
          | .str s => s
          | v => jsonDumps v
        match (jlookup mkvs "logLevelName").getD (.str "INFO") with
        | .str lvlRaw =>
          let level := strUpper lvlRaw
          match (jlookup kvs "time").getD (.str "") with
          | .str t =>
              some { time := strReplaceChar (strTake t 19) 'T' ' ',
                     subsystem := subsystem,
                     message := msg,
                     level := level,
                     important :=
                       LOG_IMPORTANT_SUBSYSTEMS.contains subsystem
                         || level == "ERROR" }
          | _ => none
        | _ => none
      | _ => none
    | _ => none

-- ── bounded event queue (queue.Queue(maxsize=500), lines 729-735) ─────

/-- The thread-safe bounded FIFO shared by tailer and poll loop.
`items` is oldest-first. -/
structure LogQueue where
  maxsize : Nat
  items : List LogEvent
deriving Repr, DecidableEq

/-- `queue.Queue.put(item)` with the default `block=True`: `some q'` is
a completed call; `none` models the producer blocked in `put`, waiting
for space (the call neither returns, drops the item, nor raises). -/
def LogQueue.put (q : LogQueue) (e : LogEvent) : Option LogQueue :=
  if 0 < q.maxsize && q.maxsize ≤ q.items.length then none
  else some { q with items := q.items ++ [e] }

/-- A producer sequentially offering `es`: stops at the first `put` that
blocks, returning the queue and the events not yet enqueued (the head of
that list is stuck inside the blocked `put` call). -/
def LogQueue.putAll (q : LogQueue) : List LogEvent → LogQueue × List LogEvent
  | [] => (q, [])
  | e :: es =>
    match q.put e with
    | some q' => q'.putAll es
    | none => (q, e :: es)

/-- `queue.Queue.get_nowait()`: `none` models the `queue.Empty` raise. -/
def LogQueue.get_nowait (q : LogQueue) : Option (LogEvent × LogQueue) :=
  match q.items with
  | [] => none
  | e :: es => some (e, { q with items := es })

/-- `DataLayer.drain_logs` (lines 761-768): repeated `get_nowait` until
the queue reports empty, collecting events in arrival order. -/
def drainLogs (q : LogQueue) : List LogEvent × LogQueue :=
  (q.items, { q with items := [] })

-- ── DataLayer (openclaw_tui.py lines 729-768) ─────────────────────────

/-- The reconciliation core's state: the held model-status snapshot
(`none` is the initial `{}`) and the auth-profile list. -/
structure DataLayer where
  _status : Option ParsedStatus
  _profiles : List AuthProfile

/-- `DataLayer.__init__` state (lines 730-734). -/
def DataLayer.init : DataLayer :=
  { _status := none, _profiles := [] }

/-- `DataLayer.refresh` (lines 742-747), with the outcomes of
`fetch_model_status()` and `read_auth_profiles()` passed explicitly.
`fetched = none` is a failed fetch; a successful fetch always yields a
non-empty dict, so the `if status:` truthiness test coincides with
`is not None`. -/
def DataLayer.refresh (d : DataLayer) (fetched : Option ParsedStatus)
    (profilesRead : List AuthProfile) : DataLayer :=
  { d with
    _status := match fetched with
               | some s => some s
               | none => d._status,
    _profiles := profilesRead }

/-- Property `rotation` (lines 749-751): `self._status.get("rotation", [])`. -/
def DataLayer.rotation (d : DataLayer) : List RotationEntry :=
  match d._status with
  | none => []
  | some s => s.rotation

/-- Property `profiles` (lines 753-755). -/
def DataLayer.profiles (d : DataLayer) : List AuthProfile :=
  d._profiles

/-- Property `default_model` (lines 757-759):
`self._status.get("default", "")`. -/
def DataLayer.default_model (d : DataLayer) : JVal :=
  match d._status with
  | none => .str ""
  | some s => s.default

-- ── LogTailer (openclaw_tui.py lines 137-139, 277-309) ────────────────

/-- `log_path()` (lines 137-139) for a given current-date string. -/
def logPath (today : String) : String :=
  "/tmp/openclaw/openclaw-" ++ today ++ ".log"

/-- Control state of `LogTailer._run`: either at the top of the outer
loop (no file open), or inside the inner read loop holding an open
handle on `path`. -/
inductive TailerState where
  | waiting
  | tailing (path : String)
deriving Repr, DecidableEq

/-- What the environment presents to one loop iteration: the current
date, whether the date-named log file exists, what `readline()` returns
on the open handle (`none` = end of file, i.e. the file is not growing),
and whether an I/O exception occurs. -/
structure TailObs where
  today : String
  fileExists : Bool
  nextLine : Option String
  ioError : Bool

/-- One iteration of `LogTailer._run` (lines 291-309) with the stop
signal not set: from `waiting`, re-resolve the path from the current
date and open it if present (the `f.seek(0, 2)` to the end is implicit);
from `tailing p`, the inner `while` loop of lines 300-307 reads one line
(parsing and emitting it) or sleeps 0.2 s on end of file — it leaves the
open handle only through an exception, which falls back to the outer
loop after a 1 s backoff.  Returns the next state and the events emitted
(each is `put` on the queue). -/
def tailerStep (s : TailerState) (o : TailObs) : TailerState × List LogEvent :=
  match s with
  | .waiting =>
    if o.fileExists then (.tailing (logPath o.today), []) else (.waiting, [])
  | .tailing p =>
    if o.ioError then (.waiting, [])
    else
      match o.nextLine with
      | some line => (.tailing p, ((_parse_log_line (strStrip line)).map (· :: [])).getD [])
      | none => (.tailing p, [])

/-- `n` iterations under a constant observation. -/
def tailerRun (o : TailObs) : Nat → TailerState → TailerState
  | 0, s => s
  | n + 1, s => tailerRun o n (tailerStep s o).1

-- ── fetch_gateway_status (openclaw_tui.py lines 473-497) ──────────────

/-- Values stored in the gateway-health dict (strings, or the int from
`len(agents.split(","))`). -/
inductive GVal where
  | s (v : String)
  | n (v : Nat)
deriving Repr, DecidableEq

/-- Python dict assignment `d[k] = v` on a string-keyed dict. -/
def dictSet : List (String × GVal) → String → GVal → List (String × GVal)
  | [], k, v => [(k, v)]
  | (k', v') :: rest, k, v =>
      if k' == k then (k, v) :: rest else (k', v') :: dictSet rest k v

/-- `re.search(r"(\d{4,})", line)`: leftmost run of at least four
digits, maximal at that position. -/
def findDigits4 : List Char → Option String
  | [] => none
  | c :: cs =>
    let run := (c :: cs).takeWhile Char.isDigit
    if 4 ≤ run.length then some ⟨run⟩ else findDigits4 cs

/-- `re.search(r"\((\d+) entries\)", line)`: leftmost `(` followed by a
digit run followed by the literal text ` entries)`. -/
def findEntries : List Char → Option String
  | [] => none
  | c :: cs =>
    if c == '(' then
      let ds := cs.takeWhile Char.isDigit
      if 1 ≤ ds.length && (" entries)".data.isPrefixOf (cs.drop ds.length)) then
        some ⟨ds⟩
      else findEntries cs
    else findEntries cs

/-- `line.split(":", 1)[1]`: everything after the first colon. -/
def splitOnceTail (s : String) : String :=
  ⟨(s.data.dropWhile (· != ':')).drop 1⟩

/-- The per-line heuristics of lines 479-492, folded over a result dict. -/
def parseHealthLine (acc : List (String × GVal)) (line : String) :
    List (String × GVal) :=
  if strContains line "PID" || strContains line "pid" then
    match findDigits4 line.data with
    | some m => dictSet acc "pid" (.s m)
    | none => acc
  else if strContains line "Session store" then
    match findEntries line.data with
    | some m => dictSet acc "sessions" (.s m)
    | none => acc
  else if "Agents:".data.isPrefixOf (strStrip line).data then
    dictSet acc "agents"
      (.n (strSplitOnChar (strStrip (splitOnceTail line)) ',').length)
  else acc

/-- `fetch_gateway_status` (lines 473-497).  `some (healthOut, verOut)`
is a run in which both subprocess calls return captured stdout; `none`
is any exception inside the `try` (timeout, spawn failure, ...), which
the function swallows, returning the `except` branch's sentinel dict of
line 497. -/
def fetch_gateway_status (outcome : Option (String × String)) :
    List (String × GVal) :=
  match outcome with
  | some (healthOut, verOut) =>
      dictSet ((strSplitOnChar healthOut '\n').foldl parseHealthLine
                 [("gateway", .s "RUN")])
        "version" (.s (strTake (strStrip verOut) 20))
  | none =>
      [("gateway", .s "ERR"), ("pid", .s "?"), ("sessions", .s "?"),
       ("agents", .s "?"), ("version", .s "?")]

-- ── auxiliary predicates and concrete sample inputs ───────────────────

/-- Lookup in the gateway-health dict. -/
def gLookup : List (String × GVal) → String → Option GVal
  | [], _ => none
  | (k, v) :: rest, key => if k == key then some v else gLookup rest key

/-- Is the value a JSON string? -/
def wtStr (v : JVal) : Bool :=
  match v with
  | .str _ => true
  | _ => false

/-- Is the value a JSON object? -/
def wtObj (v : JVal) : Bool :=
  match v with
  | .obj _ => true
  | _ => false

def wtFallbacks (kvs : List (String × JVal)) : Bool :=
  match (jlookup kvs "fallbacks").getD (.arr []) with
  | .arr fs => fs.all wtStr
  | _ => false

def wtAliases (kvs : List (String × JVal)) : Bool :=
  match (jlookup kvs "aliases").getD (.obj []) with
  | .obj pairs => pairs.all (fun kv => hashable kv.2)
  | _ => false

def wtProfilesList (o : List (String × JVal)) : Bool :=
  match (jlookup o "profiles").getD (.arr []) with
  | .arr ps => ps.all wtObj
  | _ => false

def wtOauth (a : List (String × JVal)) : Bool :=
  match (jlookup a "oauth").getD (.obj []) with
  | .obj o => wtProfilesList o
  | _ => false

def wtAuth (kvs : List (String × JVal)) : Bool :=
  match (jlookup kvs "auth").getD (.obj []) with
  | .obj a => wtOauth a
  | _ => false

/-- A status dict is well shaped when every field `parse_model_status`
touches has (or defaults to) the type the code expects: this is the
domain on which the Python function returns instead of raising. -/
def WellTypedStatus (kvs : List (String × JVal)) : Bool :=
  wtStr ((jlookup kvs "defaultModel").getD (.str "")) &&
  wtFallbacks kvs && wtAliases kvs && wtAuth kvs

/-- The number of fallbacks a status dict carries. -/
def fallbackCount (kvs : List (String × JVal)) : Nat :=
  match (jlookup kvs "fallbacks").getD (.arr []) with
  | .arr fs => fs.length
  | _ => 0

/-- A small concrete `openclaw models status --json` document. -/
def rawSampleKvs : List (String × JVal) :=
  [("defaultModel", .str "google-gemini-cli/gemini-3-flash"),
   ("fallbacks", .arr [.str "groq/llama-3.3-70b-versatile"]),
   ("aliases", .obj [("gemini-flash", .str "google-gemini-cli/gemini-3-flash")])]

/-- What `parse_model_status` returns on `rawSampleKvs`. -/
def stSample : ParsedStatus :=
  { default := .str "google-gemini-cli/gemini-3-flash",
    rotation :=
      [{ model := "google-gemini-cli/gemini-3-flash",
         label := "gemini-cli/gemini-3-flash",
         status := "ACTIVE", position := 0, alias' := some "gemini-flash" },
       { model := "groq/llama-3.3-70b-versatile",
         label := "groq/llama-3.3-70b-versatile",
         status := "#1", position := 1, alias' := none }],
    oauth_profiles := [],
    aliases := .obj [("gemini-flash", .str "google-gemini-cli/gemini-3-flash")],
    raw := .obj rawSampleKvs }

/-- A concrete credential store: an api-key profile with a short key and
an oauth profile whose cooldown ends 5000 ms after `1700000000000`. -/
def groqPdata : List (String × JVal) :=
  [("type", .str "apiKey"), ("provider", .str "groq"),
   ("apiKey", .str "gsk_abc")]

def bobPdata : List (String × JVal) :=
  [("type", .str "oauth"), ("provider", .str "google")]

def bobStats : List (String × JVal) :=
  [("cooldownUntil", .int 1700000005000), ("errorCount", .int 2)]

def authProfs : List (String × JVal) :=
  [("groq:manual", .obj groqPdata), ("google:bob", .obj bobPdata)]

def authUsage : List (String × JVal) :=
  [("google:bob", .obj bobStats)]

def authSampleKvs : List (String × JVal) :=
  [("profiles", .obj authProfs), ("usageStats", .obj authUsage)]

def authRes0 : AuthProfile :=
  { profile_id := "groq:manual", provider := .str "groq",
    auth_type := .str "apiKey", email := .null,
    api_key := some "gsk_abc...", expires_ms := .null,
    in_cooldown := false, cooldown_remaining_ms := 0,
    error_count := .int 0, last_used_ms := .null }

def authRes1 : AuthProfile :=
  { profile_id := "google:bob", provider := .str "google",
    auth_type := .str "oauth", email := .null,
    api_key := none, expires_ms := .null,
    in_cooldown := true, cooldown_remaining_ms := 5000,
    error_count := .int 2, last_used_ms := .null }

def authRes1b : AuthProfile :=
  { profile_id := "google:bob", provider := .str "google",
    auth_type := .str "oauth", email := .null,
    api_key := none, expires_ms := .null,
    in_cooldown := false, cooldown_remaining_ms := 0,
    error_count := .int 2, last_used_ms := .null }

/-- A credential store with one api-key profile whose key is 21
characters long. -/
def groq2Pdata : List (String × JVal) :=
  [("type", .str "apiKey"), ("apiKey", .str "gsk_live_9f8e7d6c5b4a")]

def auth2Profs : List (String × JVal) :=
  [("groq:manual", .obj groq2Pdata)]

def authSample2Kvs : List (String × JVal) :=
  [("profiles", .obj auth2Profs)]

def authRes2 : AuthProfile :=
  { profile_id := "groq:manual", provider := .str "groq",
    auth_type := .str "apiKey", email := .null,
    api_key := some "gsk_live...", expires_ms := .null,
    in_cooldown := false, cooldown_remaining_ms := 0,
    error_count := .int 0, last_used_ms := .null }

/-- A gateway log line whose `_meta.name` decodes to subsystem
`gateway/reload` at level `info`. -/
def reloadLine : String :=
  "\x7b\"_meta\": \x7b\"name\": \"\x7b\\\"subsystem\\\": \\\"gateway/reload\\\"\x7d\", \"logLevelName\": \"info\"\x7d, \"1\": \"config reloaded\", \"time\": \"2026-10-12T00:00:01.000Z\"\x7d"

/-- An arbitrary parsed log event. -/
def dummyEvent : LogEvent :=
  { time := "2026-10-12 00:00:01", subsystem := "model",
    message := "boot", level := "INFO", important := true }

/-- A queue of capacity 500 holding 500 events. -/
def fullQueue : LogQueue :=
  { maxsize := 500, items := List.replicate 500 dummyEvent }

-- ── infrastructure lemmas ─────────────────────────────────────────────

theorem isPrefixOf_length_le (l : List Char) :
    ∀ cs : List Char, l.isPrefixOf cs = true → l.length ≤ cs.length := by
  induction l with
  | nil => intro cs _; simp
  | cons a l ih =>
      intro cs h
      cases cs with
      | nil => simp [List.isPrefixOf] at h
      | cons b cs =>
          simp only [List.isPrefixOf, Bool.and_eq_true] at h
          simpa using Nat.succ_le_succ (ih cs h.2)

theorem subAux_length (pat : List Char) :
    ∀ cs : List Char, subAux pat cs = true → pat.length ≤ cs.length := by
  intro cs
  induction cs with
  | nil =>
      intro h
      simp only [subAux, List.isEmpty_iff] at h
      simp [h]
  | cons c cs ih =>
      intro h
      simp only [subAux, Bool.or_eq_true] at h
      cases h with
      | inl h => exact isPrefixOf_length_le _ _ h
      | inr h => exact Nat.le_succ_of_le (ih h)

/-- A string strictly longer than `s` cannot occur inside `s`. -/
theorem strContains_false_of_length (s pat : String)
    (h : s.data.length < pat.data.length) : strContains s pat = false := by
  cases hcc : strContains s pat with
  | false => rfl
  | true =>
      have := subAux_length pat.data s.data hcc
      omega

theorem string_mk_append (a b : List Char) :
    ((⟨a⟩ : String) ++ ⟨b⟩) = ⟨a ++ b⟩ := rfl

theorem strTake_dots_length (k : String) :
    (strTake k 8 ++ "...").data.length ≤ 11 := by
  show ((⟨k.data.take 8⟩ : String) ++ ⟨['.', '.', '.']⟩).data.length ≤ 11
  rw [string_mk_append]
  simp only [List.length_append, List.length_take, List.length_cons,
    List.length_nil]
  omega

/-- A successful `readLoop` maps each profile entry positionally. -/
theorem readLoop_get? (now : Int) (usage : JVal) :
    ∀ (l : List (String × JVal)) (res : List AuthProfile) (i : Nat)
      (pid : String) (pdata : JVal),
      readLoop now usage l = .ok res → l.get? i = some (pid, pdata) →
      ∃ e, res.get? i = some e ∧ profileEntry now usage pid pdata = .ok e := by
  intro l
  induction l with
  | nil => intro res i pid pdata _ hg; simp at hg
  | cons hd tl ih =>
      intro res i pid pdata h hg
      obtain ⟨p, d⟩ := hd
      simp only [readLoop] at h
      cases hpe : profileEntry now usage p d with
      | error err => rw [hpe] at h; cases h
      | ok a =>
          rw [hpe] at h
          cases hrl : readLoop now usage tl with
          | error err => rw [hrl] at h; cases h
          | ok as =>
              rw [hrl] at h
              simp only [Except.ok.injEq] at h
              subst h
              cases i with
              | zero =>
                  simp only [List.get?_cons_zero, Option.some.injEq] at hg
                  cases hg
                  exact ⟨a, rfl, hpe⟩
              | succ i =>
                  simp only [List.get?_cons_succ] at hg ⊢
                  exact ih as i pid pdata hrl hg

theorem profileEntry_eq_core (now : Int) (ukvs skvs : List (String × JVal))
    (pid : String) (pdata : JVal)
    (h4 : (jlookup ukvs pid).getD (.obj []) = .obj skvs) :
    profileEntry now (.obj ukvs) pid pdata = profileEntryCore now skvs pid pdata := by
  simp [profileEntry, pyGet, h4]

/-- A successful `profileEntry` went through `profileEntryCore` on some
stats dict. -/
theorem profileEntry_ok_core (now : Int) (usage : JVal) (pid : String)
    (pdata : JVal) (e : AuthProfile)
    (h : profileEntry now usage pid pdata = .ok e) :
    ∃ skvs, profileEntryCore now skvs pid pdata = .ok e := by
  unfold profileEntry at h
  cases usage
  case obj ukvs =>
    simp only [pyGet] at h
    cases hs : (jlookup ukvs pid).getD (.obj []) with
    | obj skvs =>
        rw [hs] at h
        exact ⟨skvs, h⟩
    | null => rw [hs] at h; exact Except.noConfusion (show (Except.error "AttributeError" : Except String AuthProfile) = .ok e from h)
    | bool b => rw [hs] at h; exact Except.noConfusion (show (Except.error "AttributeError" : Except String AuthProfile) = .ok e from h)
    | int n => rw [hs] at h; exact Except.noConfusion (show (Except.error "AttributeError" : Except String AuthProfile) = .ok e from h)
    | str s => rw [hs] at h; exact Except.noConfusion (show (Except.error "AttributeError" : Except String AuthProfile) = .ok e from h)
    | arr xs => rw [hs] at h; exact Except.noConfusion (show (Except.error "AttributeError" : Except String AuthProfile) = .ok e from h)
  all_goals exact Except.noConfusion (show (Except.error "AttributeError" : Except String AuthProfile) = .ok e from h)

theorem profileEntryCore_cooldown (now : Int) (skvs : List (String × JVal))
    (pid : String) (pdata : JVal) (c : Int)
    (h5 : (jlookup skvs "cooldownUntil").getD (.int 0) = .int c) :
    ∀ e, profileEntryCore now skvs pid pdata = .ok e →
      e.profile_id = pid ∧ e.in_cooldown = decide (c > now) ∧
      e.cooldown_remaining_ms = (if c > now then max 0 (c - now) else 0) := by
  intro e h
  unfold profileEntryCore at h
  rw [h5] at h
  cases pdata
  case obj pkvs =>
    have h' : profileEntryWithKey now c skvs pkvs pid = .ok e := h
    cases hak : apiKeyField pkvs with
    | error err =>
        unfold profileEntryWithKey at h'
        rw [hak] at h'
        cases h'
    | ok ak =>
        unfold profileEntryWithKey at h'
        rw [hak] at h'
        cases h'
        exact ⟨rfl, rfl, rfl⟩
  all_goals exact Except.noConfusion (show (Except.error "AttributeError" : Except String AuthProfile) = .ok e from h)

theorem profileEntryCore_api_key (now : Int) (skvs pkvs : List (String × JVal))
    (pid : String) (k : String)
    (h6 : jlookup pkvs "apiKey" = some (.str k)) (h7 : k ≠ "") :
    ∀ e, profileEntryCore now skvs pid (.obj pkvs) = .ok e →
      e.api_key = some (strTake k 8 ++ "...") := by
  intro e h
  have hak : apiKeyField pkvs = .ok (some (strTake k 8 ++ "...")) := by
    unfold apiKeyField
    rw [h6]
    simp [truthy, h7]
  unfold profileEntryCore at h
  cases hn : pyNum ((jlookup skvs "cooldownUntil").getD (.int 0)) with
  | error err =>
      rw [hn] at h
      exact Except.noConfusion (show (Except.error err : Except String AuthProfile) = .ok e from h)
  | ok c =>
      rw [hn] at h
      have h' : profileEntryWithKey now c skvs pkvs pid = .ok e := h
      unfold profileEntryWithKey at h'
      rw [hak] at h'
      cases h'
      rfl

/-- `read_auth_profiles` is the loop over the profiles dict, with
`usageStats` read once up front. -/
theorem read_auth_profiles_eq_loop (kvs profs : List (String × JVal)) (now : Int)
    (h1 : jlookup kvs "profiles" = some (.obj profs)) :
    read_auth_profiles (.obj kvs) now =
      readLoop now ((jlookup kvs "usageStats").getD (.obj [])) profs := by
  simp [read_auth_profiles, pyGet, h1]

-- ── claim theorems ────────────────────────────────────────────────────

/-- C6: `read_auth_profiles` samples the wall clock exactly once per
call — in the embedding the single `now` parameter mirrors the one
`now_ms = datetime.now(...).timestamp() * 1000` binding taken at line
205 before the loop, so every profile of one call is judged against the
same instant; the first conjunct exhibits each profile's cooldown state
as the one function of its own `cooldownUntil` value `c` and that shared
`now`.  For a profile whose usage-stats entry has
`cooldownUntil = now + 5000`, a read at `now` reports
`in_cooldown = true` with `0 < cooldown_remaining_ms ≤ 5000`, a read at
`now + 6000` reports `in_cooldown = false` with
`cooldown_remaining_ms = 0`, and a profile with no `cooldownUntil` entry
is never in cooldown (wall-clock epoch milliseconds are nonnegative). -/
theorem read_auth_profiles_cooldown_derivation
    (kvs profs ukvs skvs pkvs : List (String × JVal)) (pid : String)
    (i : Nat) (now c : Int)
    (h0 : 0 ≤ now)
    (h1 : jlookup kvs "profiles" = some (.obj profs))
    (h2 : (jlookup kvs "usageStats").getD (.obj []) = .obj ukvs)
    (h3 : profs.get? i = some (pid, .obj pkvs))
    (h4 : (jlookup ukvs pid).getD (.obj []) = .obj skvs)
    (h5 : (jlookup skvs "cooldownUntil").getD (.int 0) = .int c) :
    (∀ res e, read_auth_profiles (.obj kvs) now = .ok res → res.get? i = some e →
       e.profile_id = pid ∧ e.in_cooldown = decide (c > now) ∧
       e.cooldown_remaining_ms = (if c > now then max 0 (c - now) else 0)) ∧
    (c = now + 5000 →
      (∀ res e, read_auth_profiles (.obj kvs) now = .ok res → res.get? i = some e →
         e.in_cooldown = true ∧ 0 < e.cooldown_remaining_ms ∧
         e.cooldown_remaining_ms ≤ 5000) ∧
      (∀ res e, read_auth_profiles (.obj kvs) (now + 6000) = .ok res →
         res.get? i = some e →
         e.in_cooldown = false ∧ e.cooldown_remaining_ms = 0)) ∧
    (jlookup skvs "cooldownUntil" = none →
      ∀ res e, read_auth_profiles (.obj kvs) now = .ok res → res.get? i = some e →
        e.in_cooldown = false ∧ e.cooldown_remaining_ms = 0) := by
  have key : ∀ (now' : Int) (res : List AuthProfile) (e : AuthProfile),
      read_auth_profiles (.obj kvs) now' = .ok res → res.get? i = some e →
      e.profile_id = pid ∧ e.in_cooldown = decide (c > now') ∧
      e.cooldown_remaining_ms = (if c > now' then max 0 (c - now') else 0) := by
    intro now' res e hok hget
    rw [read_auth_profiles_eq_loop kvs profs now' h1, h2] at hok
    obtain ⟨e', hres, hpe⟩ :=
      readLoop_get? now' (.obj ukvs) profs res i pid (.obj pkvs) hok h3
    rw [hres] at hget
    cases hget
    rw [profileEntry_eq_core now' ukvs skvs pid (.obj pkvs) h4] at hpe
    exact profileEntryCore_cooldown now' skvs pid (.obj pkvs) c h5 e hpe
  refine ⟨fun res e hok hget => key now res e hok hget, ?_, ?_⟩
  · intro hc
    constructor
    · intro res e hok hget
      obtain ⟨_, hic, hrem⟩ := key now res e hok hget
      subst hc
      refine ⟨?_, ?_, ?_⟩
      · rw [hic]
        simp only [decide_eq_true_eq]
        omega
      · rw [hrem, if_pos (by omega)]
        omega
      · rw [hrem, if_pos (by omega)]
        omega
    · intro res e hok hget
      obtain ⟨_, hic, hrem⟩ := key (now + 6000) res e hok hget
      subst hc
      refine ⟨?_, ?_⟩
      · rw [hic]
        simp only [decide_eq_false_iff_not]
        omega
      · rw [hrem, if_neg (by omega)]
  · intro hnone res e hok hget
    rw [hnone] at h5
    obtain ⟨_, hic, hrem⟩ := key now res e hok hget
    have hc0 : c = 0 := by
      have := h5
      simp only [Option.getD_none, JVal.int.injEq] at this
      omega
    subst hc0
    refine ⟨?_, ?_⟩
    · rw [hic]
      simp only [decide_eq_false_iff_not]
      omega
    · rw [hrem, if_neg (by omega)]

/-- Witness for C6 at a concrete store and instant: profile 1 has
`cooldownUntil = 1700000000000 + 5000`; the read at `1700000000000`
reports it in cooldown with remaining 5000 ms, the read 6000 ms later
reports it out of cooldown. -/
theorem read_auth_profiles_cooldown_derivation_witness :
    read_auth_profiles (.obj authSampleKvs) 1700000000000 =
      .ok [authRes0, authRes1] ∧
    read_auth_profiles (.obj authSampleKvs) 1700000006000 =
      .ok [authRes0, authRes1b] ∧
    authRes1.in_cooldown = true ∧ 0 < authRes1.cooldown_remaining_ms ∧
    authRes1.cooldown_remaining_ms ≤ 5000 ∧
    authRes1b.in_cooldown = false ∧ authRes1b.cooldown_remaining_ms = 0 := by
  have h := read_auth_profiles_cooldown_derivation authSampleKvs authProfs
    authUsage bobStats bobPdata "google:bob" 1 1700000000000 1700000005000
    (by decide) rfl rfl rfl rfl rfl
  have h56 := h.2.1 (by decide)
  have hread : read_auth_profiles (.obj authSampleKvs) 1700000000000 =
      .ok [authRes0, authRes1] := rfl
  have hread6 : read_auth_profiles (.obj authSampleKvs) (1700000000000 + 6000) =
      .ok [authRes0, authRes1b] := rfl
  obtain ⟨hic, hpos, hle⟩ := h56.1 [authRes0, authRes1] authRes1 hread rfl
  obtain ⟨hic6, hrem6⟩ := h56.2 [authRes0, authRes1b] authRes1b hread6 rfl
  exact ⟨hread, hread6, hic, hpos, hle, hic6, hrem6⟩

/-- C7 counterexample: with the 7-character key `gsk_abc` (the repo's
own test fixture), the displayed field is `gsk_abc...` — the full secret
key occurs verbatim inside the returned data, refuting "the full secret
key value never appears".  (`strContains s pat` is Python `pat in s`.) -/
theorem read_auth_profiles_api_key_leak :
    (read_auth_profiles (.obj authSampleKvs) 1700000000000 =
      .ok [authRes0, authRes1]) ∧
    authRes0.api_key = some "gsk_abc..." ∧
    strContains "gsk_abc..." "gsk_abc" = true := by
  exact ⟨rfl, rfl, by decide⟩

/-- C7 (amended): for every profile with a non-empty string API key
`k`, the returned `api_key` field is exactly the first 8 characters of
`k` followed by `"..."` — a string of at most 11 characters — and
whenever `k` has at least 12 characters the full key cannot occur inside
the returned field.  (Keys of at most 11 characters can survive whole in
the field, as the counterexample shows.) -/
theorem read_auth_profiles_api_key_truncation
    (kvs profs pkvs : List (String × JVal)) (pid : String) (i : Nat)
    (k : String) (now : Int)
    (h1 : jlookup kvs "profiles" = some (.obj profs))
    (h3 : profs.get? i = some (pid, .obj pkvs))
    (h6 : jlookup pkvs "apiKey" = some (.str k))
    (h7 : k ≠ "") :
    ∀ res e, read_auth_profiles (.obj kvs) now = .ok res → res.get? i = some e →
      e.api_key = some (strTake k 8 ++ "...") ∧
      (strTake k 8 ++ "...").data.length ≤ 11 ∧
      (12 ≤ k.data.length →
        strContains (strTake k 8 ++ "...") k = false) := by
  intro res e hok hget
  rw [read_auth_profiles_eq_loop kvs profs now h1] at hok
  obtain ⟨e', hres, hpe⟩ :=
    readLoop_get? now ((jlookup kvs "usageStats").getD (.obj [])) profs res i
      pid (.obj pkvs) hok h3
  rw [hres] at hget
  cases hget
  obtain ⟨skvs, hcore⟩ := profileEntry_ok_core now _ pid (.obj pkvs) e hpe
  refine ⟨profileEntryCore_api_key now skvs pkvs pid k h6 h7 e hcore, strTake_dots_length k, ?_⟩
  intro hlen
  exact strContains_false_of_length _ _ (by
    have := strTake_dots_length k
    omega)

/-- Witness for C7 at a 21-character key: the field is `gsk_live...`
and the full key does not occur in it. -/
theorem read_auth_profiles_api_key_truncation_witness :
    (read_auth_profiles (.obj authSample2Kvs) 0 = .ok [authRes2]) ∧
    authRes2.api_key = some "gsk_live..." ∧
    strContains "gsk_live..." "gsk_live_9f8e7d6c5b4a" = false := by
  have h := read_auth_profiles_api_key_truncation authSample2Kvs auth2Profs
    groq2Pdata "groq:manual" 0 "gsk_live_9f8e7d6c5b4a" 0 rfl rfl rfl
    (by decide) [authRes2] authRes2 rfl rfl
  refine ⟨rfl, ?_, ?_⟩
  · have := h.1
    exact this
  · have := h.2.2 (by decide)
    simpa using this

/-- C2: when the model-status fetch fails (`fetch_model_status()`
returns `None`), `DataLayer.refresh` leaves the `rotation` and
`default_model` accessors exactly as before the call, while the
auth-profile list is unconditionally replaced by the fresh
`read_auth_profiles()` result on every refresh, whatever the fetch
outcome. -/
theorem dataLayer_refresh_failed_fetch (d : DataLayer) (ps : List AuthProfile) :
    (d.refresh none ps).rotation = d.rotation ∧
    (d.refresh none ps).default_model = d.default_model ∧
    (∀ fetched, (d.refresh fetched ps).profiles = ps) := by
  refine ⟨?_, ?_, fun fetched => rfl⟩
  · simp [DataLayer.refresh, DataLayer.rotation]
  · simp [DataLayer.refresh, DataLayer.default_model]

/-- C3 counterexample: the tailer enqueues with `self._q.put(parsed)`
(line 305), i.e. `queue.Queue.put` with the default `block=True`.  On a
full queue of capacity 500 that call blocks waiting for space (`none` in
the embedding); it does not complete with the event dropped, which would
be `some fullQueue` — so "enqueuing into a full queue drops the newly
parsed event rather than blocking" is false of the code. -/
theorem queue_put_full_blocks :
    fullQueue.items.length = 500 ∧
    fullQueue.put dummyEvent = none ∧
    fullQueue.put dummyEvent ≠ some fullQueue := by
  have hlen : fullQueue.items.length = 500 := by
    rw [show fullQueue.items = List.replicate 500 dummyEvent from rfl]
    exact List.length_replicate 500 dummyEvent
  have hput : fullQueue.put dummyEvent = none := by
    unfold LogQueue.put
    rw [if_pos]
    rw [show fullQueue.maxsize = 500 from rfl, hlen]
    decide
  refine ⟨hlen, hput, ?_⟩
  rw [hput]
  exact fun h => Option.noConfusion h

/-- The number of queued items after a sequential producer run: growth
stops exactly at the capacity, where `put` blocks. -/
theorem putAll_length_eq :
    ∀ (es : List LogEvent) (q : LogQueue), 0 < q.maxsize →
      q.items.length ≤ q.maxsize →
      ((q.putAll es).1).items.length = min (q.items.length + es.length) q.maxsize := by
  intro es
  induction es with
  | nil =>
      intro q hpos hle
      simp only [LogQueue.putAll, List.length_nil]
      omega
  | cons e es ih =>
      intro q hpos hle
      simp only [LogQueue.putAll]
      cases hput : q.put e with
      | some q' =>
          have hq' : q'.items = q.items ++ [e] ∧ q'.maxsize = q.maxsize := by
            unfold LogQueue.put at hput
            split at hput
            · cases hput
            · cases hput
              exact ⟨rfl, rfl⟩
          have hlt : q.items.length < q.maxsize := by
            unfold LogQueue.put at hput
            split at hput
            · cases hput
            · next hcond =>
                simp only [Bool.and_eq_true, decide_eq_true_eq, not_and,
                  Bool.not_eq_true, decide_eq_false_iff_not, not_le] at hcond
                omega
          have := ih q' (by omega) (by
            simp only [hq'.1, hq'.2, List.length_append, List.length_cons,
              List.length_nil]
            omega)
          simp only [this, hq'.1, hq'.2, List.length_append, List.length_cons,
            List.length_nil]
          omega
      | none =>
          have hfull : q.maxsize ≤ q.items.length := by
            unfold LogQueue.put at hput
            split at hput
            · next hcond =>
                simp only [Bool.and_eq_true, decide_eq_true_eq] at hcond
                omega
            · cases hput
          simp only [List.length_cons]
          omega

/-- C3 (amended): the queue is bounded — a queue holding at most 500
events never exceeds 500: a completed `put` preserves the bound, `put`
into a full queue blocks (it neither drops the event nor raises, the
producer simply waits), a sequential attempt to enqueue `n` further
events leaves `min (current + n) 500` queued, `drain_logs` returns
everything in arrival order emptying the queue, and a second drain with
no new input returns the empty sequence. -/
theorem queue_bounded_blocking (q : LogQueue) (e : LogEvent)
    (es : List LogEvent) (hm : q.maxsize = 500)
    (hl : q.items.length ≤ 500) :
    (∀ q', q.put e = some q' → q'.items.length ≤ 500) ∧
    (q.items.length = 500 → q.put e = none) ∧
    ((q.putAll es).1).items.length = min (q.items.length + es.length) 500 ∧
    ((q.putAll es).1).items.length ≤ 500 ∧
    (drainLogs q).1 = q.items ∧
    (drainLogs (drainLogs q).2).1 = [] := by
  refine ⟨?_, ?_, ?_, ?_, rfl, rfl⟩
  · intro q' hput
    unfold LogQueue.put at hput
    split at hput
    · cases hput
    · next hcond =>
        cases hput
        simp only [Bool.and_eq_true, decide_eq_true_eq, not_and,
          Bool.not_eq_true, decide_eq_false_iff_not, not_le] at hcond
        simp only [List.length_append, List.length_cons, List.length_nil]
        omega
  · intro hfull
    unfold LogQueue.put
    rw [if_pos]
    simp only [Bool.and_eq_true, decide_eq_true_eq]
    omega
  · rw [putAll_length_eq es q (by omega) (by omega), hm]
  · rw [putAll_length_eq es q (by omega) (by omega), hm]
    omega

/-- Witness for C3's amended statement: from an empty queue of capacity
500, offering 501 events enqueues exactly 500 (the 501st `put` blocks);
the first drain returns those 500, a second drain returns nothing. -/
theorem queue_bounded_blocking_witness :
    ((⟨500, []⟩ : LogQueue).putAll (List.replicate 501 dummyEvent)).1.items.length = 500 ∧
    ((⟨500, []⟩ : LogQueue).putAll (List.replicate 501 dummyEvent)).1.items.length ≤ 500 ∧
    (drainLogs (⟨500, []⟩ : LogQueue)).1 = [] ∧
    (drainLogs (drainLogs (⟨500, []⟩ : LogQueue)).2).1 = [] := by
  have h := queue_bounded_blocking ⟨500, []⟩ dummyEvent
    (List.replicate 501 dummyEvent) rfl (by decide)
  refine ⟨?_, h.2.2.2.1, h.2.2.2.2.1, h.2.2.2.2.2⟩
  have heq := h.2.2.1
  rw [heq, List.length_replicate]
  decide

/-- C4 counterexample: `"\x7b\x7d"` (the two-character string of an
empty JSON object) is valid JSON with no message field, yet
`_parse_log_line` returns an event — with `message = ""`, because line
262 reads the field as `obj.get("1", "")` with a default — not `None`
as claimed. -/
theorem parse_log_line_missing_message :
    jsonParse "\x7b\x7d" = some (.obj []) ∧
    _parse_log_line "\x7b\x7d" =
      some { time := "", subsystem := "unknown", message := "",
             level := "INFO", important := false } ∧
    _parse_log_line "\x7b\x7d" ≠ none := by
  have h2 : _parse_log_line "\x7b\x7d" =
      some { time := "", subsystem := "unknown", message := "",
             level := "INFO", important := false } := rfl
  refine ⟨rfl, h2, ?_⟩
  intro h
  rw [h] at h2
  exact Option.noConfusion h2

/-- C4 (amended): `_parse_log_line` is total (the embedding returns
`Option LogEvent`; every raised exception is the `none` of the outer
`except`); every string `json.loads` rejects — in particular the empty
string and plain text — yields `None`; but a valid JSON object missing
the message field yields an event whose `message` is the empty string,
not `None`. -/
theorem parse_log_line_tolerance (s : String) :
    (jsonParse s = none → _parse_log_line s = none) ∧
    _parse_log_line "" = none ∧
    _parse_log_line "not json" = none ∧
    ((_parse_log_line "\x7b\x7d").map (fun e => e.message)) = some "" := by
  refine ⟨?_, rfl, rfl, rfl⟩
  intro h
  unfold _parse_log_line
  rw [h]

/-- Witness for C4's amended statement at the concrete non-JSON string
`"x"`. -/
theorem parse_log_line_tolerance_witness :
    jsonParse "x" = none ∧ _parse_log_line "x" = none := by
  exact ⟨rfl, (parse_log_line_tolerance "x").1 rfl⟩

set_option maxRecDepth 8000 in
/-- C5 (code bug): a genuine gateway reload line carries subsystem
`gateway/reload` inside `_meta.name`; line 258 strips the `gateway/`
prefix, producing `reload`, but the significance set of line 247 lists
`"gateway/reload"`, not `"reload"`, so the membership test of line 272
fails and the event is NOT marked important — every `gateway/`-prefixed
subsystem is stripped before the test, so the set's `"gateway/reload"`
entry can never match such lines, while the spec's set
{model, ratelimit, fallback, error, reload} says a reload event is
important.  The theorem evaluates the code at the failing input. -/
theorem parse_log_line_reload_not_important :
    _parse_log_line reloadLine =
      some { time := "2026-10-12 00:00:01", subsystem := "reload",
             message := "config reloaded", level := "INFO",
             important := false } ∧
    dropPre "gateway/reload" "gateway/" = "reload" ∧
    LOG_IMPORTANT_SUBSYSTEMS.contains "reload" = false ∧
    LOG_IMPORTANT_SUBSYSTEMS.contains "gateway/reload" = true := by
  exact ⟨rfl, rfl, rfl, rfl⟩

/-- C8 (code bug): the outer loop of `LogTailer._run` does re-resolve
`log_path()` from the current date at line 293 — but only the `waiting`
state executes it.  The inner read loop of lines 300-307 tests nothing
but the stop flag: at end of file it sleeps 0.2 s and calls `readline()`
again on the same handle, so once tailing, the thread keeps the old
day's file open forever, whatever the date says — it never returns to
`WAITING_FOR_FILE` and never reaches the new day's file unless an I/O
exception happens to occur.  Concretely: tailing the 2026-10-11 file
while the date reads 2026-10-12 with the old file silent, any number of
iterations later the tailer is still on the 2026-10-11 path. -/
theorem tailer_holds_old_file :
    (∀ (p today : String) (fe : Bool) (line : Option String),
       (tailerStep (.tailing p)
          { today := today, fileExists := fe, nextLine := line,
            ioError := false }).1 = .tailing p) ∧
    (∀ (p today : String) (fe : Bool) (line : Option String) (n : Nat),
       tailerRun { today := today, fileExists := fe, nextLine := line,
                   ioError := false } n (.tailing p) = .tailing p) ∧
    (∀ n : Nat,
       tailerRun { today := "2026-10-12", fileExists := true,
                   nextLine := none, ioError := false } n
         (.tailing (logPath "2026-10-11")) = .tailing (logPath "2026-10-11")) ∧
    logPath "2026-10-11" ≠ logPath "2026-10-12" ∧
    (tailerStep TailerState.waiting
       { today := "2026-10-12", fileExists := true, nextLine := none,
         ioError := false }).1 = .tailing (logPath "2026-10-12") := by
  have hstep : ∀ (p today : String) (fe : Bool) (line : Option String),
      (tailerStep (.tailing p)
         { today := today, fileExists := fe, nextLine := line,
           ioError := false }).1 = .tailing p := by
    intro p today fe line
    cases line with
    | none => rfl
    | some l => rfl
  have hrun : ∀ (p today : String) (fe : Bool) (line : Option String) (n : Nat),
      tailerRun { today := today, fileExists := fe, nextLine := line,
                  ioError := false } n (.tailing p) = .tailing p := by
    intro p today fe line n
    induction n with
    | zero => rfl
    | succ n ih =>
        unfold tailerRun
        rw [show (tailerStep (.tailing p)
          { today := today, fileExists := fe, nextLine := line,
            ioError := false }).1 = .tailing p from hstep p today fe line] at *
        exact ih
  refine ⟨hstep, hrun, fun n => hrun _ _ _ _ n, ?_, rfl⟩
  intro h
  have : ("/tmp/openclaw/openclaw-2026-10-11.log" : String) =
      "/tmp/openclaw/openclaw-2026-10-12.log" := h
  exact absurd this (by decide)

/-- C9 counterexample: the `except` branch of `fetch_gateway_status`
(line 497) returns `{"gateway": "ERR", "pid": "?", "sessions": "?",
"agents": "?", "version": "?"}` — the optional fields are present, each
set to the placeholder string `"?"`, not absent as claimed. -/
theorem fetch_gateway_status_fields_present :
    gLookup (fetch_gateway_status none) "pid" = some (.s "?") ∧
    gLookup (fetch_gateway_status none) "pid" ≠ none ∧
    gLookup (fetch_gateway_status none) "sessions" = some (.s "?") ∧
    gLookup (fetch_gateway_status none) "agents" = some (.s "?") ∧
    gLookup (fetch_gateway_status none) "version" = some (.s "?") := by
  have h2 : gLookup (fetch_gateway_status none) "pid" = some (.s "?") := rfl
  refine ⟨h2, ?_, rfl, rfl, rfl⟩
  intro h
  rw [h] at h2
  exact Option.noConfusion h2

theorem gLookup_dictSet_ne (k k' : String) (v : GVal) (hne : k' ≠ k) :
    ∀ d : List (String × GVal), gLookup (dictSet d k v) k' = gLookup d k' := by
  intro d
  induction d with
  | nil =>
      simp only [dictSet, gLookup]
      rw [if_neg (by simpa using hne.symm)]
  | cons hd tl ih =>
      obtain ⟨k0, v0⟩ := hd
      simp only [dictSet]
      by_cases h0 : k0 = k
      · rw [if_pos (by simpa using h0)]
        simp only [gLookup]
        rw [if_neg (by simpa using hne.symm),
          if_neg (by rw [h0]; simpa using hne.symm)]
      · rw [if_neg (by simpa using h0)]
        simp only [gLookup]
        by_cases h1 : k0 = k'
        · rw [if_pos (by simp [h1]), if_pos (by simp [h1])]
        · rw [if_neg (by simpa using h1), if_neg (by simpa using h1)]
          exact ih

theorem parseHealthLine_gateway (line : String) :
    ∀ acc, gLookup acc "gateway" = some (.s "RUN") →
      gLookup (parseHealthLine acc line) "gateway" = some (.s "RUN") := by
  intro acc hacc
  unfold parseHealthLine
  split
  · cases findDigits4 line.data with
    | none => exact hacc
    | some m => rw [gLookup_dictSet_ne "pid" "gateway" (.s m) (by decide)]; exact hacc
  · split
    · cases findEntries line.data with
      | none => exact hacc
      | some m => rw [gLookup_dictSet_ne "sessions" "gateway" (.s m) (by decide)]; exact hacc
    · split
      · rw [gLookup_dictSet_ne "agents" "gateway" _ (by decide)]; exact hacc
      · exact hacc

theorem foldl_parseHealthLine_gateway :
    ∀ (lines : List String) (acc : List (String × GVal)),
      gLookup acc "gateway" = some (.s "RUN") →
      gLookup (lines.foldl parseHealthLine acc) "gateway" = some (.s "RUN") := by
  intro lines
  induction lines with
  | nil => intro acc hacc; exact hacc
  | cons l ls ih =>
      intro acc hacc
      exact ih (parseHealthLine acc l) (parseHealthLine_gateway l acc hacc)

/-- C9 (amended): `fetch_gateway_status` never raises to its caller —
the embedding is total over every outcome — and on any exception it
returns the sentinel dict with `gateway = "ERR"` and the optional fields
`pid`, `sessions`, `agents`, `version` all present, each set to the
placeholder `"?"` rather than absent; every non-raising run reports
`gateway = "RUN"` instead, so the sentinel is distinguishable. -/
theorem fetch_gateway_status_sentinel :
    fetch_gateway_status none =
      [("gateway", .s "ERR"), ("pid", .s "?"), ("sessions", .s "?"),
       ("agents", .s "?"), ("version", .s "?")] ∧
    gLookup (fetch_gateway_status none) "gateway" = some (.s "ERR") ∧
    (∀ healthOut verOut : String,
       gLookup (fetch_gateway_status (some (healthOut, verOut))) "gateway" =
         some (.s "RUN")) := by
  refine ⟨rfl, rfl, ?_⟩
  intro healthOut verOut
  unfold fetch_gateway_status
  rw [gLookup_dictSet_ne "version" "gateway" _ (by decide)]
  exact foldl_parseHealthLine_gateway _ _ rfl

theorem buildRotation_length (ap : List (String × JVal)) :
    ∀ (ms : List JVal) (i : Nat) (rs : List RotationEntry),
      buildRotation ap i ms = .ok rs → rs.length = ms.length := by
  intro ms
  induction ms with
  | nil => intro i rs h; cases h; rfl
  | cons m ms ih =>
      intro i rs h
      unfold buildRotation at h
      cases m
      case str s =>
        cases hrec : buildRotation ap (i + 1) ms with
        | error err =>
            rw [hrec] at h
            exact Except.noConfusion (show (Except.error err : Except String (List RotationEntry)) = .ok rs from h)
        | ok es =>
            rw [hrec] at h
            cases h
            simp [ih (i + 1) es hrec]
      all_goals exact Except.noConfusion (show (Except.error "AttributeError" : Except String (List RotationEntry)) = .ok rs from h)

theorem buildRotation_get? (ap : List (String × JVal)) :
    ∀ (ms : List JVal) (i j : Nat) (rs : List RotationEntry) (m : JVal),
      buildRotation ap i ms = .ok rs → ms.get? j = some m →
      ∃ e, rs.get? j = some e ∧ m = .str e.model ∧ e.position = i + j ∧
        e.label = _shorten e.model ∧ e.alias' = aliasLookup ap m ∧
        e.status = (if i + j == 0 then "ACTIVE" else "#" ++ natToStr (i + j)) := by
  intro ms
  induction ms with
  | nil => intro i j rs m h hg; simp at hg
  | cons m0 ms ih =>
      intro i j rs m h hg
      unfold buildRotation at h
      cases m0
      case str s =>
        cases hrec : buildRotation ap (i + 1) ms with
        | error err =>
            rw [hrec] at h
            exact Except.noConfusion (show (Except.error err : Except String (List RotationEntry)) = .ok rs from h)
        | ok es =>
            rw [hrec] at h
            cases h
            cases j with
            | zero =>
                simp only [List.get?_cons_zero, Option.some.injEq] at hg
                subst hg
                refine ⟨_, rfl, rfl, by simp, rfl, rfl, by simp⟩
            | succ j =>
                simp only [List.get?_cons_succ] at hg ⊢
                obtain ⟨e, hres, hm, hpos, hlab, hal, hstat⟩ :=
                  ih (i + 1) j es m hrec hg
                have hidx : i + 1 + j = i + (j + 1) := by omega
                refine ⟨e, hres, hm, by omega, hlab, hal, ?_⟩
                rw [← hidx]
                exact hstat
      all_goals exact Except.noConfusion (show (Except.error "AttributeError" : Except String (List RotationEntry)) = .ok rs from h)

theorem buildRotation_ok (ap : List (String × JVal)) :
    ∀ (ms : List JVal) (i : Nat), ms.all wtStr = true →
      ∃ rs, buildRotation ap i ms = .ok rs := by
  intro ms
  induction ms with
  | nil => intro i _; exact ⟨[], rfl⟩
  | cons m ms ih =>
      intro i hall
      simp only [List.all_cons, Bool.and_eq_true] at hall
      obtain ⟨rs, hrs⟩ := ih (i + 1) hall.2
      cases m
      case str s =>
        refine ⟨({ model := s, label := _shorten s,
                   status := if i == 0 then "ACTIVE" else "#" ++ natToStr i,
                   position := i,
                   alias' := aliasLookup ap (.str s) } :: rs), ?_⟩
        unfold buildRotation
        rw [hrs]
      all_goals simp [wtStr] at hall

theorem buildOAuth_ok :
    ∀ ps : List JVal, ps.all wtObj = true →
      ∃ os, buildOAuth ps = .ok os := by
  intro ps
  induction ps with
  | nil => intro _; exact ⟨[], rfl⟩
  | cons p ps ih =>
      intro hall
      simp only [List.all_cons, Bool.and_eq_true] at hall
      obtain ⟨os, hos⟩ := ih hall.2
      cases p
      case obj pk =>
        refine ⟨({ profile_id := (jlookup pk "profileId").getD (.str ""),
                   provider := (jlookup pk "provider").getD (.str ""),
                   status := (jlookup pk "status").getD (.str ""),
                   expires_at := (jlookup pk "expiresAt").getD .null,
                   remaining_ms := (jlookup pk "remainingMs").getD (.int 0) } :: os), ?_⟩
        unfold buildOAuth
        rw [hos]
      all_goals simp [wtObj] at hall

theorem oauthOf_ok (kvs a o : List (String × JVal)) (ps : List JVal)
    (hA : (jlookup kvs "auth").getD (.obj []) = .obj a)
    (hO : (jlookup a "oauth").getD (.obj []) = .obj o)
    (hP : (jlookup o "profiles").getD (.arr []) = .arr ps)
    (hall : ps.all wtObj = true) :
    ∃ os, oauthOf (.obj kvs) = .ok os := by
  obtain ⟨os, hos⟩ := buildOAuth_ok ps hall
  refine ⟨os, ?_⟩
  unfold oauthOf
  simp only [pyGet, hA, hO, hP]
  exact hos

/-- Inverting a successful `parse_model_status`: the aliases and
fallbacks fields were well shaped, the snapshot's `default` is the
`defaultModel` value (default `""`), and the rotation is the
`buildRotation` run over `[default] + fallbacks`. -/
theorem parse_model_status_inv (kvs : List (String × JVal)) (st : ParsedStatus)
    (h : parse_model_status (.obj kvs) = .ok st) :
    ∃ al fs,
      (jlookup kvs "aliases").getD (.obj []) = .obj al ∧
      (jlookup kvs "fallbacks").getD (.arr []) = .arr fs ∧
      st.default = (jlookup kvs "defaultModel").getD (.str "") ∧
      buildRotation al 0
        (((jlookup kvs "defaultModel").getD (.str "")) :: fs) = .ok st.rotation := by
  unfold parse_model_status at h
  simp only [pyGet] at h
  cases hA : (jlookup kvs "aliases").getD (.obj []) with
  | obj al =>
      rw [hA] at h
      have h0 : parseWithInv (.obj kvs)
          ((jlookup kvs "defaultModel").getD (.str ""))
          ((jlookup kvs "fallbacks").getD (.arr [])) al = .ok st := h
      unfold parseWithInv at h0
      cases hInv : invertAliases al with
      | error err =>
          rw [hInv] at h0
          exact Except.noConfusion (show (Except.error err : Except String ParsedStatus) = .ok st from h0)
      | ok inv =>
      rw [hInv] at h0
      have hial : inv = al := by
        unfold invertAliases at hInv
        split at hInv
        · cases hInv
          rfl
        · cases hInv
      rw [hial] at h0
      have h1 : parseWithAliases (.obj kvs)
          ((jlookup kvs "defaultModel").getD (.str ""))
          ((jlookup kvs "fallbacks").getD (.arr [])) al = .ok st := h0
      unfold parseWithAliases at h1
      cases hF : (jlookup kvs "fallbacks").getD (.arr []) with
      | arr fs =>
          rw [hF] at h1
          have h2 : parseRotation (.obj kvs)
              ((jlookup kvs "defaultModel").getD (.str "")) fs al = .ok st := h1
          unfold parseRotation at h2
          cases hR : buildRotation al 0
              (((jlookup kvs "defaultModel").getD (.str "")) :: fs) with
          | error err =>
              rw [hR] at h2
              exact Except.noConfusion (show (Except.error err : Except String ParsedStatus) = .ok st from h2)
          | ok rot =>
              rw [hR] at h2
              cases hO : oauthOf (.obj kvs) with
              | error err =>
                  rw [hO] at h2
                  exact Except.noConfusion (show (Except.error err : Except String ParsedStatus) = .ok st from h2)
              | ok oas =>
                  rw [hO] at h2
                  cases h2
                  exact ⟨al, fs, rfl, rfl, rfl, hR⟩
      | null => rw [hF] at h1; exact Except.noConfusion (show (Except.error "TypeError" : Except String ParsedStatus) = .ok st from h1)
      | bool b => rw [hF] at h1; exact Except.noConfusion (show (Except.error "TypeError" : Except String ParsedStatus) = .ok st from h1)
      | int n => rw [hF] at h1; exact Except.noConfusion (show (Except.error "TypeError" : Except String ParsedStatus) = .ok st from h1)
      | str s => rw [hF] at h1; exact Except.noConfusion (show (Except.error "TypeError" : Except String ParsedStatus) = .ok st from h1)
      | obj kv => rw [hF] at h1; exact Except.noConfusion (show (Except.error "TypeError" : Except String ParsedStatus) = .ok st from h1)
  | null => rw [hA] at h; exact Except.noConfusion (show (Except.error "AttributeError" : Except String ParsedStatus) = .ok st from h)
  | bool b => rw [hA] at h; exact Except.noConfusion (show (Except.error "AttributeError" : Except String ParsedStatus) = .ok st from h)
  | int n => rw [hA] at h; exact Except.noConfusion (show (Except.error "AttributeError" : Except String ParsedStatus) = .ok st from h)
  | str s => rw [hA] at h; exact Except.noConfusion (show (Except.error "AttributeError" : Except String ParsedStatus) = .ok st from h)
  | arr xs => rw [hA] at h; exact Except.noConfusion (show (Except.error "AttributeError" : Except String ParsedStatus) = .ok st from h)

/-- C1: for a status dict with `defaultModel = D` and
`fallbacks = [f1, f2, ...]`, a successful `parse_model_status` yields a
snapshot whose entry 0 has model `D`, status `"ACTIVE"` and position 0,
whose entry `i` (`i ≥ 1`) has model `f_i`, status `"#i"` and position
`i`, and whose `default` field equals entry 0's model. -/
theorem parse_model_status_rotation_order
    (kvs : List (String × JVal)) (D : String) (fs : List JVal)
    (st : ParsedStatus)
    (hD : jlookup kvs "defaultModel" = some (.str D))
    (hf : jlookup kvs "fallbacks" = some (.arr fs))
    (hok : parse_model_status (.obj kvs) = .ok st) :
    st.default = .str D ∧
    st.rotation.length = 1 + fs.length ∧
    (∃ e0, st.rotation.get? 0 = some e0 ∧ e0.model = D ∧
       e0.status = "ACTIVE" ∧ e0.position = 0 ∧ st.default = .str e0.model) ∧
    (∀ i f, fs.get? i = some f → ∃ e, st.rotation.get? (i + 1) = some e ∧
       f = .str e.model ∧ e.status = "#" ++ natToStr (i + 1) ∧
       e.position = i + 1) := by
  obtain ⟨al, fs', hA, hF, hdef, hrot⟩ := parse_model_status_inv kvs st hok
  rw [hD] at hdef hrot
  rw [hf] at hF
  simp only [Option.getD_some] at hdef hrot
  simp only [Option.getD_some, JVal.arr.injEq] at hF
  subst hF
  have hlen := buildRotation_length al (.str D :: fs) 0 st.rotation hrot
  refine ⟨hdef, ?_, ?_, ?_⟩
  · rw [hlen]
    simp only [List.length_cons]
    omega
  · obtain ⟨e0, hres, hm, hpos, _, _, hstat⟩ :=
      buildRotation_get? al (.str D :: fs) 0 0 st.rotation (.str D) hrot rfl
    simp only [JVal.str.injEq] at hm
    refine ⟨e0, hres, hm.symm, ?_, by simpa using hpos, ?_⟩
    · rw [hstat]
      rfl
    · rw [hdef, hm]
  · intro i f hg
    obtain ⟨e, hres, hm, hpos, _, _, hstat⟩ :=
      buildRotation_get? al (.str D :: fs) 0 (i + 1) st.rotation f hrot
        (by simpa using hg)
    refine ⟨e, hres, hm, ?_, by simpa using hpos⟩
    rw [hstat]
    simp only [Nat.zero_add]
    rw [if_neg (by simp)]

/-- Witness for C1 at the concrete `rawSampleKvs`. -/
theorem parse_model_status_rotation_order_witness :
    parse_model_status (.obj rawSampleKvs) = .ok stSample ∧
    stSample.default = .str "google-gemini-cli/gemini-3-flash" ∧
    (∃ e, stSample.rotation.get? 1 = some e ∧ e.status = "#1" ∧
      e.model = "groq/llama-3.3-70b-versatile" ∧ e.position = 1) := by
  have hok : parse_model_status (.obj rawSampleKvs) = .ok stSample := rfl
  have h := parse_model_status_rotation_order rawSampleKvs
    "google-gemini-cli/gemini-3-flash" [.str "groq/llama-3.3-70b-versatile"]
    stSample rfl rfl hok
  obtain ⟨e, hres, hm, hstat, hpos⟩ :=
    h.2.2.2 0 (.str "groq/llama-3.3-70b-versatile") rfl
  simp only [JVal.str.injEq] at hm
  refine ⟨hok, h.1, e, hres, ?_, hm.symm, hpos⟩
  rw [hstat]
  rfl

/-- C10: on every well-shaped input dict — the empty dict and dicts
missing `defaultModel` included — `parse_model_status` succeeds with a
rotation of length exactly `1 + (number of fallbacks)`, hence never
empty; when `defaultModel` is absent, entry 0 is a phantom `ACTIVE`
entry whose model id is the empty string (`raw.get("defaultModel", "")`
at line 159). -/
theorem parse_model_status_never_empty (kvs : List (String × JVal))
    (h : WellTypedStatus kvs = true) :
    ∃ st, parse_model_status (.obj kvs) = .ok st ∧
      st.rotation.length = 1 + fallbackCount kvs ∧
      st.rotation ≠ [] ∧
      (jlookup kvs "defaultModel" = none →
        ∃ e, st.rotation.get? 0 = some e ∧ e.model = "" ∧
          e.status = "ACTIVE" ∧ e.position = 0) := by
  simp only [WellTypedStatus, Bool.and_eq_true] at h
  obtain ⟨⟨⟨hD, hF⟩, hA⟩, hAuth⟩ := h
  unfold wtFallbacks at hF
  unfold wtAliases at hA
  unfold wtAuth at hAuth
  cases hDv : (jlookup kvs "defaultModel").getD (.str "") with
  | str d =>
    cases hFv : (jlookup kvs "fallbacks").getD (.arr []) with
    | arr fs =>
      rw [hFv] at hF
      have hFall : fs.all wtStr = true := hF
      cases hAv : (jlookup kvs "aliases").getD (.obj []) with
      | obj al =>
        rw [hAv] at hA
        have hHash : al.all (fun kv => hashable kv.2) = true := hA
        cases hAuthv : (jlookup kvs "auth").getD (.obj []) with
        | obj a =>
          rw [hAuthv] at hAuth
          have h2 : wtOauth a = true := hAuth
          unfold wtOauth at h2
          cases hOv : (jlookup a "oauth").getD (.obj []) with
          | obj o =>
            rw [hOv] at h2
            have h3 : wtProfilesList o = true := h2
            unfold wtProfilesList at h3
            cases hPv : (jlookup o "profiles").getD (.arr []) with
            | arr ps =>
              rw [hPv] at h3
              have hall : ps.all wtObj = true := h3
              obtain ⟨rot, hrot⟩ := buildRotation_ok al (.str d :: fs) 0
                (by simp only [List.all_cons, Bool.and_eq_true]
                    exact ⟨rfl, hFall⟩)
              obtain ⟨os, hos⟩ := oauthOf_ok kvs a o ps hAuthv hOv hPv hall
              refine ⟨⟨.str d, rot, os, .obj al, .obj kvs⟩, ?_, ?_, ?_, ?_⟩
              · have hInv : invertAliases al = .ok al := by
                  unfold invertAliases
                  rw [if_pos hHash]
                unfold parse_model_status
                simp only [pyGet, hDv, hFv, hAv]
                show parseWithInv (.obj kvs) (.str d) (.arr fs) al = _
                unfold parseWithInv
                rw [hInv]
                show parseRotation (.obj kvs) (.str d) fs al = _
                unfold parseRotation
                rw [hrot, hos]
              · show rot.length = 1 + fallbackCount kvs
                have hl := buildRotation_length al (.str d :: fs) 0 rot hrot
                have hfc : fallbackCount kvs = fs.length := by
                  unfold fallbackCount
                  rw [hFv]
                rw [hfc, hl]
                simp only [List.length_cons]
                omega
              · show rot ≠ []
                have hl := buildRotation_length al (.str d :: fs) 0 rot hrot
                intro hnil
                rw [hnil] at hl
                simp at hl
              · intro hnone
                rw [hnone] at hDv
                simp only [Option.getD_none, JVal.str.injEq] at hDv
                obtain ⟨e, hres, hm, hpos, _, _, hstat⟩ :=
                  buildRotation_get? al (.str d :: fs) 0 0 rot (.str d) hrot rfl
                simp only [JVal.str.injEq] at hm
                refine ⟨e, hres, ?_, ?_, by simpa using hpos⟩
                · rw [← hm, ← hDv]
                · rw [hstat]
                  rfl
            | null => rw [hPv] at h3; exact Bool.noConfusion (show false = true from h3)
            | bool b => rw [hPv] at h3; exact Bool.noConfusion (show false = true from h3)
            | int n => rw [hPv] at h3; exact Bool.noConfusion (show false = true from h3)
            | str sx => rw [hPv] at h3; exact Bool.noConfusion (show false = true from h3)
            | obj oo => rw [hPv] at h3; exact Bool.noConfusion (show false = true from h3)
          | null => rw [hOv] at h2; exact Bool.noConfusion (show false = true from h2)
          | bool b => rw [hOv] at h2; exact Bool.noConfusion (show false = true from h2)
          | int n => rw [hOv] at h2; exact Bool.noConfusion (show false = true from h2)
          | str sx => rw [hOv] at h2; exact Bool.noConfusion (show false = true from h2)
          | arr xs => rw [hOv] at h2; exact Bool.noConfusion (show false = true from h2)
        | null => rw [hAuthv] at hAuth; exact Bool.noConfusion (show false = true from hAuth)
        | bool b => rw [hAuthv] at hAuth; exact Bool.noConfusion (show false = true from hAuth)
        | int n => rw [hAuthv] at hAuth; exact Bool.noConfusion (show false = true from hAuth)
        | str sx => rw [hAuthv] at hAuth; exact Bool.noConfusion (show false = true from hAuth)
        | arr xs => rw [hAuthv] at hAuth; exact Bool.noConfusion (show false = true from hAuth)
      | null => rw [hAv] at hA; exact Bool.noConfusion (show false = true from hA)
      | bool b => rw [hAv] at hA; exact Bool.noConfusion (show false = true from hA)
      | int n => rw [hAv] at hA; exact Bool.noConfusion (show false = true from hA)
      | str sx => rw [hAv] at hA; exact Bool.noConfusion (show false = true from hA)
      | arr xs => rw [hAv] at hA; exact Bool.noConfusion (show false = true from hA)
    | null => rw [hFv] at hF; exact Bool.noConfusion (show false = true from hF)
    | bool b => rw [hFv] at hF; exact Bool.noConfusion (show false = true from hF)
    | int n => rw [hFv] at hF; exact Bool.noConfusion (show false = true from hF)
    | str sx => rw [hFv] at hF; exact Bool.noConfusion (show false = true from hF)
    | obj oo => rw [hFv] at hF; exact Bool.noConfusion (show false = true from hF)
  | null => rw [hDv] at hD; simp [wtStr] at hD
  | bool b => rw [hDv] at hD; simp [wtStr] at hD
  | int n => rw [hDv] at hD; simp [wtStr] at hD
  | arr xs => rw [hDv] at hD; simp [wtStr] at hD
  | obj oo => rw [hDv] at hD; simp [wtStr] at hD

/-- Witness for C10 at the empty dict: one phantom ACTIVE entry with
model id `""`. -/
theorem parse_model_status_never_empty_witness :
    WellTypedStatus [] = true ∧
    (∃ st, parse_model_status (.obj []) = .ok st ∧
      st.rotation.length = 1 ∧
      ∃ e, st.rotation.get? 0 = some e ∧ e.model = "" ∧
        e.status = "ACTIVE" ∧ e.position = 0) := by
  have h := parse_model_status_never_empty [] rfl
  obtain ⟨st, hok, hlen, _, hph⟩ := h
  obtain ⟨e, he⟩ := hph rfl
  exact ⟨rfl, st, hok, hlen.trans rfl, e, he⟩

/-- C10 counterexample: not every input dict yields a rotation — on
`{"fallbacks": 0}` the Python function raises `TypeError` at line 164
(`[default] + fallbacks` concatenates a list with an int), so it
returns nothing at all there; the universal claim must be restricted to
well-shaped dicts. -/
theorem parse_model_status_ill_typed_raises :
    parse_model_status (.obj [("fallbacks", .int 0)]) = .error "TypeError" ∧
    (¬ ∃ st, parse_model_status (.obj [("fallbacks", .int 0)]) = .ok st) := by
  refine ⟨rfl, ?_⟩
  rintro ⟨st, hst⟩
  rw [show parse_model_status (.obj [("fallbacks", .int 0)]) =
    .error "TypeError" from rfl] at hst
  exact Except.noConfusion hst

/-- An unhashable alias value (here a list) becomes a dict key in the
line-161 comprehension `{v: k for k, v in raw.get("aliases", {}).items()}`,
so `parse_model_status` raises `TypeError` there — before any rotation
is built; `WellTypedStatus` rejects the same dict. -/
theorem parse_model_status_alias_unhashable :
    parse_model_status (.obj [("aliases", .obj [("a", .arr [])])]) =
      .error "TypeError" ∧
    WellTypedStatus [("aliases", .obj [("a", .arr [])])] = false := ⟨rfl, rfl⟩
